import Mathlib

/-!
Verification of the OctoLightHA light-controller logic
(`octoprint_octolightHA/__init__.py`), shallowly embedded in Lean.

Python strings are modelled as `List Char`; the Python value stored in
`self.isLightOn` (which can be `True`, `False` or `None`) is modelled as
`Option Bool` with `none` standing for Python `None` (the "Unknown" light
state).  Remote I/O is modelled by an environment record `Net` holding the
outcome of the (at most one) POST and the (at most one) GET an operation can
issue, and every operation returns, next to its result, the list of
observable events (HTTP calls, the sleep, the plugin-message broadcast) it
performed, in order.
-/

/-- Python strings, modelled as lists of characters. -/
abbrev Str := List Char

/-- Truthiness of the `isLightOn` slot: Python `None` and `False` are falsy. -/
def truthy : Option Bool → Bool
  | none => false
  | some b => b

/-- Embedding of `_parse_status(status)`: `True` iff the status string is
exactly `'on'`. -/
def _parse_status (status : Str) : Bool :=
  if status = "on".toList then true else false

/-- The plugin configuration (`self.config`), with the four settings keys. -/
structure Config where
  address : Str
  api_key : Str
  entity_id : Str
  verify_certificate : Bool
deriving DecidableEq, Repr

/-- Embedding of `is_config_completed`: Python
`bool(address and entity_id and api_key)`, where string truthiness is
non-emptiness. -/
def is_config_completed (cfg : Config) : Bool :=
  !cfg.address.isEmpty && !cfg.entity_id.isEmpty && !cfg.api_key.isEmpty

/-- Observable events an operation can perform, in order. -/
inductive Ev where
  | httpGet (url : Str) (bearer : Str) (verify : Bool)
  | httpPost (url : Str) (bearer : Str) (body_entity_id : Str) (verify : Bool)
  | sleep (seconds : Nat)
  | pluginMessage (isLightOn : Option Bool)
deriving DecidableEq, Repr

/-- Whether an event is a network call (to the hub). -/
def Ev.isNetworkCall : Ev → Bool
  | .httpGet _ _ _ => true
  | .httpPost _ _ _ _ => true
  | _ => false

/-- The network calls contained in an event trace. -/
def networkCalls (evs : List Ev) : List Ev :=
  evs.filter Ev.isNetworkCall

/-- Outcome of the `requests.get` + `response.json()['state']` sequence in
`is_HA_state_on`, as distinguished by the handlers in the source. -/
inductive QueryResp where
  | connError
  | otherError
  | parseError
  | stateField (s : Str)
deriving DecidableEq, Repr

/-- Outcome of the `requests.post` + `response.json()[0]['state']` sequence in
`toggle_HA_state`, as distinguished by the handlers in the source.
`missingState` is the `(IndexError, KeyError)` case: the response array is
empty or its first element lacks the `state` key. -/
inductive ToggleResp where
  | connError
  | otherError
  | missingState
  | parseError
  | stateField (s : Str)
deriving DecidableEq, Repr

/-- The remote environment: the response the hub gives to the (at most one)
toggle POST and the (at most one) state GET of a single operation. -/
structure Net where
  toggleResp : ToggleResp
  queryResp : QueryResp
deriving DecidableEq, Repr

/-- Result of an internal operation: the Python return value and the event
trace. -/
structure OpOut where
  result : Option Bool
  evs : List Ev
deriving DecidableEq, Repr

/-- Result of a cache-mutating operation: the new `self.isLightOn` and the
event trace. -/
structure StOut where
  newLight : Option Bool
  evs : List Ev
deriving DecidableEq, Repr

/-- The GET URL built in `is_HA_state_on`. -/
def query_url (cfg : Config) : Str :=
  cfg.address ++ "/api/states/".toList ++ cfg.entity_id

/-- Embedding of Python `str.split('.')`. -/
def py_split_dot : Str → List Str
  | [] => [[]]
  | c :: rest =>
    match py_split_dot rest with
    | [] => [[]]
    | seg :: segs =>
      if c = '.' then [] :: seg :: segs
      else (c :: seg) :: segs

/-- Embedding of `_entity_id.split('.')[0]` in `toggle_HA_state`. -/
def _entity_domain (entity_id : Str) : Str :=
  (py_split_dot entity_id).headD []

/-- The POST URL built in `toggle_HA_state`. -/
def toggle_url (cfg : Config) : Str :=
  cfg.address ++ "/api/services/".toList ++ _entity_domain cfg.entity_id
    ++ "/toggle".toList

/-- Embedding of `is_HA_state_on` (queryState).  Returns `False` when the
configuration is incomplete (no network call); otherwise issues the GET and
returns `None` on transport or parse failure, else `_parse_status` of the
`state` field. -/
def is_HA_state_on (cfg : Config) (net : Net) : OpOut :=
  if !is_config_completed cfg then
    { result := some false, evs := [] }
  else
    let call := Ev.httpGet (query_url cfg) cfg.api_key cfg.verify_certificate
    match net.queryResp with
    | .connError => { result := none, evs := [call] }
    | .otherError => { result := none, evs := [call] }
    | .parseError => { result := none, evs := [call] }
    | .stateField s => { result := some (_parse_status s), evs := [call] }

/-- Embedding of `toggle_HA_state` (toggle).  Returns `None` (bare `return`)
when the configuration is incomplete (no network call); otherwise issues the
POST; on `IndexError`/`KeyError` while reading `[0]['state']` it sleeps 1
second and re-issues the state query, adopting its result; on other failures
the result is `None`; on success `_parse_status` of the reported state.
The `isLightOn` argument is `old_isLightOn`, used by the source only for
logging. -/
def toggle_HA_state (cfg : Config) (isLightOn : Option Bool) (net : Net) :
    OpOut :=
  if !is_config_completed cfg then
    { result := none, evs := [] }
  else
    let call := Ev.httpPost (toggle_url cfg) cfg.api_key cfg.entity_id
      cfg.verify_certificate
    match net.toggleResp with
    | .connError => { result := none, evs := [call] }
    | .otherError => { result := none, evs := [call] }
    | .parseError => { result := none, evs := [call] }
    | .missingState =>
      let q := is_HA_state_on cfg net
      { result := q.result, evs := call :: Ev.sleep 1 :: q.evs }
    | .stateField s => { result := some (_parse_status s), evs := [call] }

/-- Embedding of `toggle_light`: stores `toggle_HA_state()`'s result into
`self.isLightOn` unconditionally and broadcasts the new value. -/
def toggle_light (cfg : Config) (isLightOn : Option Bool) (net : Net) :
    StOut :=
  let r := toggle_HA_state cfg isLightOn net
  { newLight := r.result, evs := r.evs ++ [Ev.pluginMessage r.result] }

/-- Embedding of `refresh_light_status`: stores `is_HA_state_on()`'s result
into `self.isLightOn` unconditionally and broadcasts the new value. -/
def refresh_light_status (cfg : Config) (net : Net) : StOut :=
  let r := is_HA_state_on cfg net
  { newLight := r.result, evs := r.evs ++ [Ev.pluginMessage r.result] }

/-- The JSON body returned by `on_api_get`. -/
inductive ApiResp where
  | stateJson (state : Option Bool)
  | errorJson (msg : Str)
deriving DecidableEq, Repr

/-- Result of the API handler: the response body, the new `self.isLightOn`,
and the event trace. -/
structure ApiOut where
  resp : ApiResp
  newLight : Option Bool
  evs : List Ev
deriving DecidableEq, Repr

/-- Embedding of `on_api_get`.  `action_arg` is the raw `action` query
parameter (`none` when absent); `request.args.get` defaults it to
`'toggle'`. -/
def on_api_get (cfg : Config) (isLightOn : Option Bool) (net : Net)
    (action_arg : Option Str) : ApiOut :=
  let action := action_arg.getD "toggle".toList
  if action = "toggle".toList then
    let t := toggle_light cfg isLightOn net
    { resp := .stateJson t.newLight, newLight := t.newLight, evs := t.evs }
  else if action = "getState".toList then
    let t := refresh_light_status cfg net
    { resp := .stateJson t.newLight, newLight := t.newLight, evs := t.evs }
  else if action = "turnOn".toList then
    if !truthy isLightOn then
      let t := toggle_light cfg isLightOn net
      { resp := .stateJson t.newLight, newLight := t.newLight, evs := t.evs }
    else
      { resp := .stateJson isLightOn, newLight := isLightOn, evs := [] }
  else if action = "turnOff".toList then
    if truthy isLightOn then
      let t := toggle_light cfg isLightOn net
      { resp := .stateJson t.newLight, newLight := t.newLight, evs := t.evs }
    else
      { resp := .stateJson isLightOn, newLight := isLightOn, evs := [] }
  else
    { resp := .errorJson "action not recognized".toList,
      newLight := isLightOn, evs := [] }

/-- The spec's derived operation `setState(desired)`: skip the remote call
when the cached state (on the boolean surface) already equals `desired`,
otherwise behave exactly like toggle.  This definition follows the spec's
words, for comparison with `on_api_get`'s `turnOn`/`turnOff` branches. -/
def setState_spec (cfg : Config) (isLightOn : Option Bool) (net : Net)
    (desired : Bool) : StOut :=
  if truthy isLightOn = desired then
    { newLight := isLightOn, evs := [] }
  else
    toggle_light cfg isLightOn net

/-- A complete example configuration, used by concrete witnesses. -/
def cfg0 : Config :=
  { address := "http://hub.local".toList
  , api_key := "secretkey".toList
  , entity_id := "light.kitchen".toList
  , verify_certificate := false }

/-- An incomplete example configuration (empty address). -/
def cfg_incomplete : Config :=
  { address := []
  , api_key := "secretkey".toList
  , entity_id := "light.kitchen".toList
  , verify_certificate := false }

example : is_config_completed cfg0 = true := by decide
example : is_config_completed cfg_incomplete = false := by decide
example : _entity_domain "light.kitchen".toList = "light".toList := by decide
example : _parse_status "on".toList = true := by decide
example : _parse_status "ON".toList = false := by decide
example :
    (toggle_light cfg0 (some true) ⟨.connError, .connError⟩).newLight
      = none := by decide

/-! Helper lemmas about `py_split_dot`. -/

lemma py_split_dot_ne_nil (s : Str) : py_split_dot s ≠ [] := by
  cases s with
  | nil => simp [py_split_dot]
  | cons c rest =>
    rw [py_split_dot]
    cases h : py_split_dot rest with
    | nil => simp
    | cons seg segs => by_cases hc : c = '.' <;> simp [hc]

lemma py_split_dot_headD (s : Str) :
    (py_split_dot s).headD [] = s.takeWhile (fun c => c != '.') := by
  induction s with
  | nil => simp [py_split_dot]
  | cons c rest ih =>
    rw [py_split_dot]
    cases h : py_split_dot rest with
    | nil => exact absurd h (py_split_dot_ne_nil rest)
    | cons seg segs =>
      rw [h] at ih
      by_cases hc : c = '.'
      · simp [hc, List.takeWhile_cons]
      · simp only [List.headD_cons] at ih
        simp [hc, List.takeWhile_cons, ih]

lemma is_HA_state_on_evs (cfg : Config) (net : Net)
    (hc : is_config_completed cfg = true) :
    (is_HA_state_on cfg net).evs
      = [Ev.httpGet (query_url cfg) cfg.api_key cfg.verify_certificate] := by
  obtain ⟨tr, qr⟩ := net
  cases qr <;> simp [is_HA_state_on, hc]

/-- Claim C9: `_parse_status` is case-sensitive: every string other than the
exact lowercase `"on"` (including `"ON"`, `"On"`, `"true"`) is mapped to
`False`, i.e. treated as Off. -/
theorem parse_status_case_sensitive (s : Str) (h : s ≠ "on".toList) :
    _parse_status s = false :=
  if_neg h

/-- Witness for `parse_status_case_sensitive` at the concrete string
`"ON"`. -/
theorem parse_status_case_sensitive_witness :
    "ON".toList ≠ "on".toList ∧ _parse_status "ON".toList = false :=
  ⟨by decide, parse_status_case_sensitive "ON".toList (by decide)⟩

/-- Claim C5: with complete configuration, when the hub response carries a
string `state` field, `is_HA_state_on` maps `"on"` to `True` and any other
string to `False`. -/
theorem query_state_field_mapping (cfg : Config) (net : Net) (s : Str)
    (hc : is_config_completed cfg = true)
    (hs : net.queryResp = .stateField s) :
    ((is_HA_state_on cfg net).result = some true ↔ s = "on".toList)
    ∧ (s ≠ "on".toList → (is_HA_state_on cfg net).result = some false) := by
  by_cases h : s = "on".toList
  · simp [is_HA_state_on, hc, hs, _parse_status, h]
  · simp [is_HA_state_on, hc, hs, _parse_status, h]

/-- Witness for `query_state_field_mapping` at a hub response
`{state: "off"}` against the complete configuration `cfg0`. -/
theorem query_state_field_mapping_witness :
    is_config_completed cfg0 = true
    ∧ (is_HA_state_on cfg0 ⟨.connError, .stateField "off".toList⟩).result
        = some false :=
  ⟨by decide,
   (query_state_field_mapping cfg0 ⟨.connError, .stateField "off".toList⟩
      "off".toList (by decide) rfl).2 (by decide)⟩

/-- Claim C4: with incomplete configuration (any of address, entity id, API
key empty) `is_HA_state_on` performs no network call and returns the Python
boolean `False` (the disabled result on the boolean-compatibility surface),
and `toggle_HA_state` likewise performs no network call (it returns `None`).
-/
theorem incomplete_config_disables_operations (cfg : Config) (net : Net)
    (h : is_config_completed cfg = false) :
    is_HA_state_on cfg net = { result := some false, evs := [] }
    ∧ ∀ st : Option Bool,
        toggle_HA_state cfg st net = { result := none, evs := [] } := by
  constructor
  · simp [is_HA_state_on, h]
  · intro st
    simp [toggle_HA_state, h]

/-- Witness for `incomplete_config_disables_operations` at the concrete
incomplete configuration `cfg_incomplete`. -/
theorem incomplete_config_disables_operations_witness :
    is_config_completed cfg_incomplete = false
    ∧ is_HA_state_on cfg_incomplete ⟨.connError, .connError⟩
        = { result := some false, evs := [] }
    ∧ toggle_HA_state cfg_incomplete (some true) ⟨.connError, .connError⟩
        = { result := none, evs := [] } :=
  ⟨by decide,
   (incomplete_config_disables_operations cfg_incomplete
      ⟨.connError, .connError⟩ (by decide)).1,
   (incomplete_config_disables_operations cfg_incomplete
      ⟨.connError, .connError⟩ (by decide)).2 (some true)⟩

/-- Claim C7: for an entity id containing a dot, the entity domain used by
`toggle_HA_state` is the substring before the first dot, and the POST goes to
`{address}/api/services/{domain}/toggle`. -/
theorem toggle_entity_domain_url (cfg : Config) (st : Option Bool)
    (net : Net) (hc : is_config_completed cfg = true)
    (hd : '.' ∈ cfg.entity_id) :
    _entity_domain cfg.entity_id
        = cfg.entity_id.takeWhile (fun c => c != '.')
    ∧ (toggle_HA_state cfg st net).evs.head?
        = some (Ev.httpPost
            (cfg.address ++ "/api/services/".toList
              ++ cfg.entity_id.takeWhile (fun c => c != '.')
              ++ "/toggle".toList)
            cfg.api_key cfg.entity_id cfg.verify_certificate) := by
  have hdom := py_split_dot_headD cfg.entity_id
  refine ⟨hdom, ?_⟩
  rw [List.headD_eq_head?] at hdom
  obtain ⟨tr, qr⟩ := net
  cases tr <;>
    simp [toggle_HA_state, hc, toggle_url, _entity_domain, hdom]

/-- Witness for `toggle_entity_domain_url`: entity id `"light.kitchen"`
yields domain `"light"` and a POST to
`http://hub.local/api/services/light/toggle`. -/
theorem toggle_entity_domain_url_witness :
    is_config_completed cfg0 = true
    ∧ '.' ∈ cfg0.entity_id
    ∧ _entity_domain cfg0.entity_id = "light".toList
    ∧ (toggle_HA_state cfg0 none
          ⟨.stateField "on".toList, .connError⟩).evs.head?
        = some (Ev.httpPost
            "http://hub.local/api/services/light/toggle".toList
            "secretkey".toList "light.kitchen".toList false) := by
  have h := toggle_entity_domain_url cfg0 none
    ⟨.stateField "on".toList, .connError⟩ (by decide) (by decide)
  refine ⟨by decide, by decide, ?_, ?_⟩
  · rw [h.1]
    decide
  · rw [h.2]
    decide

/-- Claim C8: an `action` parameter that is present but none of `toggle`,
`getState`, `turnOn`, `turnOff` yields the body
`{error: "action not recognized"}`, no events at all (in particular no
network call), and an unchanged cached light state. -/
theorem unrecognized_action_no_effect (cfg : Config) (st : Option Bool)
    (net : Net) (a : Str)
    (h1 : a ≠ "toggle".toList) (h2 : a ≠ "getState".toList)
    (h3 : a ≠ "turnOn".toList) (h4 : a ≠ "turnOff".toList) :
    on_api_get cfg st net (some a)
      = { resp := .errorJson "action not recognized".toList,
          newLight := st, evs := [] } := by
  simp only [on_api_get, Option.getD_some]
  rw [if_neg h1, if_neg h2, if_neg h3, if_neg h4]

/-- Witness for `unrecognized_action_no_effect` at `action=blink`. -/
theorem unrecognized_action_no_effect_witness :
    on_api_get cfg0 (some true) ⟨.connError, .connError⟩
        (some "blink".toList)
      = { resp := .errorJson "action not recognized".toList,
          newLight := some true, evs := [] } :=
  unrecognized_action_no_effect cfg0 (some true) ⟨.connError, .connError⟩
    "blink".toList (by decide) (by decide) (by decide) (by decide)

/-- Claim C1: with complete configuration, when the toggle POST succeeds but
reading `[0]['state']` raises `IndexError`/`KeyError`, `toggle_HA_state`
performs exactly the POST, a 1-second sleep, and one follow-up state GET,
adopts the follow-up query's result as the outcome, and if that query also
fails the result is `None` (Unknown). -/
theorem toggle_missing_state_retries_once (cfg : Config) (st : Option Bool)
    (net : Net) (hc : is_config_completed cfg = true)
    (hm : net.toggleResp = .missingState) :
    toggle_HA_state cfg st net
      = { result := (is_HA_state_on cfg net).result,
          evs := [Ev.httpPost (toggle_url cfg) cfg.api_key cfg.entity_id
                    cfg.verify_certificate,
                  Ev.sleep 1,
                  Ev.httpGet (query_url cfg) cfg.api_key
                    cfg.verify_certificate] }
    ∧ ((is_HA_state_on cfg net).result = none →
        (toggle_HA_state cfg st net).result = none) := by
  have hevs := is_HA_state_on_evs cfg net hc
  have h1 : toggle_HA_state cfg st net
      = { result := (is_HA_state_on cfg net).result,
          evs := Ev.httpPost (toggle_url cfg) cfg.api_key cfg.entity_id
                  cfg.verify_certificate
                :: Ev.sleep 1 :: (is_HA_state_on cfg net).evs } := by
    simp [toggle_HA_state, hc, hm]
  refine ⟨?_, ?_⟩
  · rw [h1, hevs]
  · intro h
    rw [h1]
    exact h

/-- Witness for `toggle_missing_state_retries_once`: complete configuration
`cfg0`, an empty-array toggle response, and a failing follow-up query give
outcome `None`. -/
theorem toggle_missing_state_retries_once_witness :
    is_config_completed cfg0 = true
    ∧ (toggle_HA_state cfg0 (some false)
        ⟨.missingState, .connError⟩).result = none :=
  ⟨by decide,
   (toggle_missing_state_retries_once cfg0 (some false)
      ⟨.missingState, .connError⟩ (by decide) rfl).2 (by decide)⟩

/-- Claim C2 counterexample: starting from a cached `True` and a toggle whose
POST raises a connection error, `toggle_light` stores `None` (Unknown) into
the cache instead of retaining the prior value, so "an Unknown result is
never stored into the cache" is false on the code. -/
theorem cache_retention_cex :
    (toggle_light cfg0 (some true) ⟨.connError, .connError⟩).newLight = none
    ∧ (toggle_light cfg0 (some true)
        ⟨.connError, .connError⟩).newLight ≠ some true :=
  ⟨by decide, by decide⟩

/-- Claim C2 as amended: after `toggle_light`/`refresh_light_status` the
cache holds exactly the operation's returned result, and it is `None`
(Unknown) precisely on the failure paths — the prior cache value is never
retained on failure. -/
theorem unknown_overwrites_cache (cfg : Config) (st : Option Bool)
    (net : Net) :
    ((toggle_light cfg st net).newLight = none ↔
      (is_config_completed cfg = false
        ∨ net.toggleResp = .connError ∨ net.toggleResp = .otherError
        ∨ net.toggleResp = .parseError
        ∨ (net.toggleResp = .missingState
            ∧ (net.queryResp = .connError ∨ net.queryResp = .otherError
                ∨ net.queryResp = .parseError))))
    ∧ ((refresh_light_status cfg net).newLight = none ↔
        (is_config_completed cfg = true
          ∧ (net.queryResp = .connError ∨ net.queryResp = .otherError
              ∨ net.queryResp = .parseError))) := by
  obtain ⟨tr, qr⟩ := net
  cases hcc : is_config_completed cfg <;> cases tr <;> cases qr <;>
    simp [toggle_light, toggle_HA_state, refresh_light_status,
      is_HA_state_on, hcc]

/-- Claim C3 counterexample: with an incomplete configuration and a cached
`True`, invoking toggle is not a no-op on the cache: `toggle_HA_state`
returns `None` and `toggle_light` stores it, so the observable cache after
the call differs from the cache before it. -/
theorem toggle_incomplete_overwrites_cache_cex :
    (toggle_light cfg_incomplete (some true)
        ⟨.connError, .connError⟩).newLight = none
    ∧ (toggle_light cfg_incomplete (some true)
        ⟨.connError, .connError⟩).newLight ≠ some true :=
  ⟨by decide, by decide⟩

/-- Claim C3 as amended: with incomplete configuration, toggle performs no
network call, but `toggle_HA_state` returns `None` (not the prior cached
state) and `toggle_light` overwrites the cache with it, so the cache
afterwards is Unknown (it equals the prior value only if that value was
already `None`). -/
theorem toggle_incomplete_no_network_stores_unknown (cfg : Config)
    (st : Option Bool) (net : Net)
    (h : is_config_completed cfg = false) :
    toggle_light cfg st net
      = { newLight := none, evs := [Ev.pluginMessage none] }
    ∧ networkCalls (toggle_light cfg st net).evs = [] := by
  have h1 : toggle_light cfg st net
      = { newLight := none, evs := [Ev.pluginMessage none] } := by
    simp [toggle_light, toggle_HA_state, h]
  refine ⟨h1, ?_⟩
  rw [h1]
  decide

/-- Witness for `toggle_incomplete_no_network_stores_unknown` at the
concrete incomplete configuration `cfg_incomplete` and prior cache
`True`. -/
theorem toggle_incomplete_no_network_stores_unknown_witness :
    is_config_completed cfg_incomplete = false
    ∧ toggle_light cfg_incomplete (some true) ⟨.connError, .connError⟩
        = { newLight := none, evs := [Ev.pluginMessage none] } :=
  ⟨by decide,
   (toggle_incomplete_no_network_stores_unknown cfg_incomplete (some true)
      ⟨.connError, .connError⟩ (by decide)).1⟩

/-- Claim C6: the `turnOn`/`turnOff` actions are exactly the spec's
`setState(desired)`: skip the remote call (no events, unchanged state) when
the cached state on the boolean surface already equals `desired`, otherwise
perform exactly the calls and state transition of toggle. -/
theorem turn_actions_refine_setState (cfg : Config) (st : Option Bool)
    (net : Net) :
    on_api_get cfg st net (some "turnOn".toList)
      = { resp := .stateJson (setState_spec cfg st net true).newLight,
          newLight := (setState_spec cfg st net true).newLight,
          evs := (setState_spec cfg st net true).evs }
    ∧ on_api_get cfg st net (some "turnOff".toList)
      = { resp := .stateJson (setState_spec cfg st net false).newLight,
          newLight := (setState_spec cfg st net false).newLight,
          evs := (setState_spec cfg st net false).evs } := by
  cases st with
  | none => exact ⟨rfl, rfl⟩
  | some b => cases b <;> exact ⟨rfl, rfl⟩

/-- Claim C10: a cached `None` (Unknown) is treated as Off by the HTTP
actions: `turnOn` invokes toggle (its trace starts with the toggle POST when
the configuration is complete), while `turnOff` issues no call and leaves
the cache at `None`. -/
theorem unknown_cache_treated_as_off (cfg : Config) (net : Net)
    (hc : is_config_completed cfg = true) :
    (on_api_get cfg none net (some "turnOn".toList)
        = { resp := .stateJson (toggle_light cfg none net).newLight,
            newLight := (toggle_light cfg none net).newLight,
            evs := (toggle_light cfg none net).evs }
      ∧ (toggle_light cfg none net).evs.head?
          = some (Ev.httpPost (toggle_url cfg) cfg.api_key cfg.entity_id
              cfg.verify_certificate))
    ∧ on_api_get cfg none net (some "turnOff".toList)
        = { resp := .stateJson none, newLight := none, evs := [] } := by
  refine ⟨⟨rfl, ?_⟩, rfl⟩
  obtain ⟨tr, qr⟩ := net
  cases tr <;> simp [toggle_light, toggle_HA_state, hc]

/-- Witness for `unknown_cache_treated_as_off` at the complete configuration
`cfg0`. -/
theorem unknown_cache_treated_as_off_witness :
    is_config_completed cfg0 = true
    ∧ on_api_get cfg0 none ⟨.stateField "on".toList, .connError⟩
        (some "turnOff".toList)
        = { resp := .stateJson none, newLight := none, evs := [] }
    ∧ (toggle_light cfg0 none
        ⟨.stateField "on".toList, .connError⟩).evs.head?
        = some (Ev.httpPost (toggle_url cfg0) cfg0.api_key cfg0.entity_id
            cfg0.verify_certificate) :=
  ⟨by decide,
   (unknown_cache_treated_as_off cfg0 ⟨.stateField "on".toList, .connError⟩
      (by decide)).2,
   (unknown_cache_treated_as_off cfg0 ⟨.stateField "on".toList, .connError⟩
      (by decide)).1.2⟩
